import Mathlib

/-!
Shallow embedding of `src/unfollow.ts` (agent-twitter-client): the three
operations `unfollowUser`, `getMyFollowers` and `isFollowingMe`, their
shared user normalization, and the pagination loop of `getMyFollowers`.

Network collaborators (the V2 client and `auth.me()`) are modelled as
explicit environment records whose fields hold the outcome each call would
produce; a thrown JavaScript value is either an `Error` carrying a message
or a non-`Error` value, modelled by `JSError`.  The pagination loop is
modelled with explicit fuel (the TypeScript `do/while` has no bound of its
own) and an observation trace recording, for each page request issued, the
requested page size and the number of followers accumulated at that moment.
-/

/-- A thrown JavaScript value: either `instanceof Error` (carrying its
`message`), or any other throwable, carried opaquely as a string tag. -/
inductive JSError where
  | err (message : String)
  | nonError (value : String)
deriving DecidableEq, Repr

/-- `public_metrics` sub-object of a raw V2 user. -/
structure PublicMetrics where
  followers_count : Nat
  following_count : Nat
deriving DecidableEq, Repr

/-- A raw user object as returned by the V2 API (`user.data` in
`userByUsername`, or one element of `response.data` in `followers`).
`protected` is a Lean keyword, hence the guillemets. -/
structure RawUser where
  id : String
  username : String
  name : String
  profile_image_url : Option String
  description : Option String
  verified : Option Bool
  «protected» : Option Bool
  public_metrics : Option PublicMetrics
deriving DecidableEq, Repr

/-- The `TwitterUser` output shape built by all operations. -/
structure TwitterUser where
  id : String
  screenName : String
  name : String
  profileImageUrl : String
  description : Option String
  verified : Option Bool
  «protected» : Option Bool
  followersCount : Option Nat
  friendsCount : Option Nat
deriving DecidableEq, Repr

/-- The placeholder profile-image URL used when the source field is falsy. -/
def defaultProfileImageUrl : String :=
  "https://abs.twimg.com/sticky/default_profile_images/default_profile_normal.png"

/-- JavaScript `a || b` on an optional string: `undefined`, `null` and the
empty string are falsy, so `b` is used exactly in those cases. -/
def jsOrString (a : Option String) (b : String) : String :=
  match a with
  | none => b
  | some s => if s = "" then b else s

/-- The field mapping applied identically in `unfollowUser` (return value)
and in `getMyFollowers` (`response.data.map`): raw V2 user to `TwitterUser`. -/
def normalizeUser (u : RawUser) : TwitterUser :=
  { id := u.id
    screenName := u.username
    name := u.name
    profileImageUrl := jsOrString u.profile_image_url defaultProfileImageUrl
    description := u.description
    verified := u.verified
    «protected» := u.«protected»
    followersCount := u.public_metrics.map (fun m => m.followers_count)
    friendsCount := u.public_metrics.map (fun m => m.following_count) }

/-- Message of the error thrown when `auth.getV2Client()` is falsy. -/
def v2InitMessage : String :=
  "V2 client is not initialized. Please login with API credentials first."

/-- Message of the error thrown when `auth.me()` yields no truthy `userId`. -/
def meMessage : String :=
  "Could not get current user ID. Please ensure you are logged in."

/-- The `catch` block shared (up to prefix text) by all three operations:
an `Error` is rethrown with the contextual text prepended to its message,
any other throwable is rethrown unchanged. -/
def wrapError (ctx : String) : JSError → JSError
  | .err m => .err (ctx ++ ": " ++ m)
  | .nonError v => .nonError v

/-- Result of `auth.me()`: outer `Option` is the `currentUser` object being
present, inner `Option` is its `userId` field being present. -/
abbrev MeResult := Option (Option String)

/-- The `if (!currentUser?.userId)` guard: true when the result is nullish
or the `userId` is nullish or the empty string (all falsy in JavaScript). -/
def meGuardFails (r : MeResult) : Bool :=
  match r with
  | none => true
  | some none => true
  | some (some uid) => uid = ""

/-- Collaborator outcomes consumed by `unfollowUser`. -/
structure UnfollowEnv where
  v2client : Option Unit
  userByUsername : Except JSError (Option RawUser)
  me : Except JSError MeResult
  unfollowCall : Except JSError Unit

/-- The `try` body of `unfollowUser`: username lookup, current-user
resolution, the unfollow call, then the normalized target user. -/
def unfollowBody (username : String) (env : UnfollowEnv) :
    Except JSError TwitterUser :=
  match env.userByUsername with
  | .error e => .error e
  | .ok none => .error (.err ("User " ++ username ++ " not found"))
  | .ok (some userData) =>
    match env.me with
    | .error e => .error e
    | .ok meRes =>
      if meGuardFails meRes then .error (.err meMessage)
      else
        match env.unfollowCall with
        | .error e => .error e
        | .ok _ => .ok (normalizeUser userData)

/-- `unfollowUser`: the V2-client guard runs before the `try`, the body's
failures pass through the `catch` block. -/
def unfollowUser (username : String) (env : UnfollowEnv) :
    Except JSError TwitterUser :=
  match env.v2client with
  | none => .error (.err v2InitMessage)
  | some _ =>
    match unfollowBody username env with
    | .ok u => .ok u
    | .error e => .error (wrapError ("Failed to unfollow user " ++ username) e)

/-- One page response of the `followers` endpoint: the optional `data`
array and `meta.next_token`. -/
structure FollowersPage where
  data : Option (List RawUser)
  next_token : Option String
deriving DecidableEq, Repr

/-- Observation recorded for one iteration of the pagination loop: the
`max_results` value sent, the accumulated count at request time, whether
the response carried a `data` field, and how many entries it held. -/
structure RequestRecord where
  requestedSize : Int
  accBefore : Nat
  gotData : Bool
  entryCount : Nat
deriving DecidableEq, Repr

/-- Outcome of the pagination loop, with the trace of issued requests:
normal exit, fuel exhaustion (the source loop would still be running), or
a page request throwing. -/
inductive LoopOutcome where
  | finished (followers : List TwitterUser) (trace : List RequestRecord)
  | fuelExhausted (followers : List TwitterUser) (trace : List RequestRecord)
  | threw (e : JSError) (trace : List RequestRecord)
deriving DecidableEq, Repr

/-- The request trace of an outcome. -/
def LoopOutcome.trace : LoopOutcome → List RequestRecord
  | .finished _ tr => tr
  | .fuelExhausted _ tr => tr
  | .threw _ tr => tr

/-- Prepend the current iteration's record to an outcome's trace. -/
def LoopOutcome.withRecord (r : RequestRecord) : LoopOutcome → LoopOutcome
  | .finished fs tr => .finished fs (r :: tr)
  | .fuelExhausted fs tr => .fuelExhausted fs (r :: tr)
  | .threw e tr => .threw e (r :: tr)

/-- The `do/while` pagination loop of `getMyFollowers`.  `server` gives the
outcome of the n-th page request; each iteration requests
`min(100, maxResults - followers.length)` entries, breaks on a missing
`data` field, appends the normalized entries, breaks once
`followers.length >= maxResults`, and otherwise continues while a
`next_token` is present. -/
def followersLoop (server : Nat → Except JSError FollowersPage)
    (maxResults : Int) (followers : List TwitterUser) (idx : Nat) :
    Nat → LoopOutcome
  | 0 => LoopOutcome.fuelExhausted followers []
  | (fuel + 1) =>
    match server idx with
    | .error e =>
        LoopOutcome.threw e
          [⟨min 100 (maxResults - followers.length), followers.length, false, 0⟩]
    | .ok response =>
      match response.data with
      | none =>
          LoopOutcome.finished followers
            [⟨min 100 (maxResults - followers.length), followers.length, false, 0⟩]
      | some entries =>
        if maxResults ≤ ((followers ++ entries.map normalizeUser).length : Int) then
          LoopOutcome.finished (followers ++ entries.map normalizeUser)
            [⟨min 100 (maxResults - followers.length), followers.length, true,
              entries.length⟩]
        else
          match response.next_token with
          | none =>
              LoopOutcome.finished (followers ++ entries.map normalizeUser)
                [⟨min 100 (maxResults - followers.length), followers.length, true,
                  entries.length⟩]
          | some _ =>
              (followersLoop server maxResults
                  (followers ++ entries.map normalizeUser) (idx + 1) fuel).withRecord
                ⟨min 100 (maxResults - followers.length), followers.length, true,
                  entries.length⟩

/-- The loop started from an empty accumulator at the first request. -/
def followersRun (server : Nat → Except JSError FollowersPage)
    (maxResults : Int) (fuel : Nat) : LoopOutcome :=
  followersLoop server maxResults [] 0 fuel

/-- Collaborator outcomes consumed by `getMyFollowers`. -/
structure FollowersEnv where
  v2client : Option Unit
  me : Except JSError MeResult
  pages : Nat → Except JSError FollowersPage

/-- The `try` body of `getMyFollowers`: current-user resolution then the
pagination loop.  `none` means the fuel ran out (the source loop would
still be iterating). -/
def followersBody (env : FollowersEnv) (maxResults : Int) (fuel : Nat) :
    Option (Except JSError (List TwitterUser)) :=
  match env.me with
  | .error e => some (.error e)
  | .ok meRes =>
    if meGuardFails meRes then some (.error (.err meMessage))
    else
      match followersRun env.pages maxResults fuel with
      | .finished fs _ => some (.ok fs)
      | .fuelExhausted _ _ => none
      | .threw e _ => some (.error e)

/-- `getMyFollowers`: V2-client guard before the `try`, body failures pass
through the `catch` block. -/
def getMyFollowers (env : FollowersEnv) (maxResults : Int) (fuel : Nat) :
    Option (Except JSError (List TwitterUser)) :=
  match env.v2client with
  | none => some (.error (.err v2InitMessage))
  | some _ =>
    match followersBody env maxResults fuel with
    | none => none
    | some (.ok fs) => some (.ok fs)
    | some (.error e) => some (.error (wrapError "Failed to get followers" e))

/-- One page response of the `following` endpoint, reduced to the entry
ids (the call requests only the `id` user field). -/
structure FollowingPage where
  data : Option (List String)
deriving DecidableEq, Repr

/-- Collaborator outcomes consumed by `isFollowingMe`. -/
structure FollowCheckEnv where
  v2client : Option Unit
  userByUsername : Except JSError (Option RawUser)
  me : Except JSError MeResult
  followingCall : Except JSError FollowingPage

/-- The `try` body of `isFollowingMe`: username lookup, current-user
resolution, one `following` page, then
`relationship.data?.some(f => f.id === currentUser.userId) ?? false`. -/
def isFollowingMeBody (username : String) (env : FollowCheckEnv) :
    Except JSError Bool :=
  match env.userByUsername with
  | .error e => .error e
  | .ok none => .error (.err ("User " ++ username ++ " not found"))
  | .ok (some _) =>
    match env.me with
    | .error e => .error e
    | .ok none => .error (.err meMessage)
    | .ok (some none) => .error (.err meMessage)
    | .ok (some (some uid)) =>
      if uid = "" then .error (.err meMessage)
      else
        match env.followingCall with
        | .error e => .error e
        | .ok relationship =>
          match relationship.data with
          | none => .ok false
          | some ids => .ok (ids.any (fun fid => fid = uid))

/-- `isFollowingMe`: V2-client guard before the `try`, body failures pass
through the `catch` block. -/
def isFollowingMe (username : String) (env : FollowCheckEnv) :
    Except JSError Bool :=
  match env.v2client with
  | none => .error (.err v2InitMessage)
  | some _ =>
    match isFollowingMeBody username env with
    | .ok b => .ok b
    | .error e =>
        .error (wrapError ("Failed to check if " ++ username ++ " follows you") e)

/-! ## Helper lemmas -/

theorem trace_withRecord (r : RequestRecord) (o : LoopOutcome) :
    (o.withRecord r).trace = r :: o.trace := by
  cases o <;> rfl

/-- Every nonempty trace produced by the loop starts with a record of the
accumulator length the loop was entered with. -/
theorem followersLoop_head_accBefore
    (server : Nat → Except JSError FollowersPage) (maxResults : Int)
    (followers : List TwitterUser) (idx fuel : Nat) (r : RequestRecord)
    (rest : List RequestRecord)
    (h : (followersLoop server maxResults followers idx fuel).trace = r :: rest) :
    r.accBefore = followers.length := by
  cases fuel with
  | zero => simp [followersLoop, LoopOutcome.trace] at h
  | succ n =>
    rw [followersLoop] at h
    split at h
    · simp [LoopOutcome.trace] at h
      rw [← h.1]
    · split at h
      · simp [LoopOutcome.trace] at h
        rw [← h.1]
      · split at h
        · simp [LoopOutcome.trace] at h
          rw [← h.1]
        · split at h
          · simp [LoopOutcome.trace] at h
            rw [← h.1]
          · rw [trace_withRecord] at h
            rw [← (List.cons_eq_cons.mp h).1]

/-- If the loop is entered with fewer than `maxResults` accumulated
followers, every request in its trace is issued at a moment when fewer
than `maxResults` followers are accumulated. -/
theorem followersLoop_mem_lt (maxResults : Int) :
    ∀ (fuel : Nat) (server : Nat → Except JSError FollowersPage)
      (followers : List TwitterUser) (idx : Nat) (r : RequestRecord),
      r ∈ (followersLoop server maxResults followers idx fuel).trace →
      (followers.length : Int) < maxResults →
      (r.accBefore : Int) < maxResults := by
  intro fuel
  induction fuel with
  | zero =>
    intro server followers idx r hr hlt
    simp [followersLoop, LoopOutcome.trace] at hr
  | succ n ih =>
    intro server followers idx r hr hlt
    rw [followersLoop] at hr
    split at hr
    · simp [LoopOutcome.trace] at hr
      rw [hr]; exact hlt
    · split at hr
      · simp [LoopOutcome.trace] at hr
        rw [hr]; exact hlt
      · split at hr
        · simp [LoopOutcome.trace] at hr
          rw [hr]; exact hlt
        · split at hr
          · simp [LoopOutcome.trace] at hr
            rw [hr]; exact hlt
          · rw [trace_withRecord] at hr
            rcases List.mem_cons.mp hr with h1 | h2
            · rw [h1]; exact hlt
            · exact ih server _ (idx + 1) r h2 (by omega)

/-- If the loop is entered with `maxResults` already reached, it issues at
most one request: every trace has an empty tail. -/
theorem followersLoop_tail_nil_of_ge
    (server : Nat → Except JSError FollowersPage) (maxResults : Int)
    (followers : List TwitterUser) (idx fuel : Nat)
    (hge : maxResults ≤ (followers.length : Int)) :
    (followersLoop server maxResults followers idx fuel).trace.tail = [] := by
  cases fuel with
  | zero => simp [followersLoop, LoopOutcome.trace]
  | succ n =>
    rw [followersLoop]
    split
    · simp [LoopOutcome.trace]
    · split
      · simp [LoopOutcome.trace]
      · split
        · simp [LoopOutcome.trace]
        · split
          · simp [LoopOutcome.trace]
          · exfalso
            simp only [List.length_append, List.length_map] at *
            omega

/-- C3: in `getMyFollowers`, once the accumulated count reaches or exceeds
`maxResults`, the loop stops and no further page request is issued, for
every sequence of server pages: every page request after the first one in
the run's trace is issued while strictly fewer than `maxResults` followers
are accumulated. -/
theorem getMyFollowers_no_request_after_target
    (server : Nat → Except JSError FollowersPage) (maxResults : Int)
    (fuel : Nat) (r : RequestRecord)
    (hr : r ∈ (followersRun server maxResults fuel).trace.tail) :
    (r.accBefore : Int) < maxResults := by
  rw [followersRun] at hr
  by_cases hpos : (0 : Int) < maxResults
  · exact followersLoop_mem_lt maxResults fuel server [] 0 r
      (List.mem_of_mem_tail hr) (by simpa)
  · rw [followersLoop_tail_nil_of_ge server maxResults [] 0 fuel
      (by simp; omega)] at hr
    simp at hr

/-- First concrete raw user: has a profile image and public metrics. -/
def rawA : RawUser :=
  ⟨"1", "alice", "Alice", some "http://img/a", none, some true, some false,
    some ⟨10, 20⟩⟩

/-- Second concrete raw user: no profile image, no metrics. -/
def rawB : RawUser :=
  ⟨"2", "bob", "Bob", none, some "desc", none, none, none⟩

/-- A server answering two one-entry pages, the first with a next cursor. -/
def serverTwoPages : Nat → Except JSError FollowersPage :=
  fun i => if i = 0 then .ok ⟨some [rawA], some "cursor1"⟩
           else .ok ⟨some [rawB], none⟩

theorem getMyFollowers_no_request_after_target_witness :
    (⟨1, 1, true, 1⟩ : RequestRecord) ∈ (followersRun serverTwoPages 2 5).trace.tail
    ∧ (((⟨1, 1, true, 1⟩ : RequestRecord).accBefore : Int) < 2) :=
  ⟨by decide,
   getMyFollowers_no_request_after_target serverTwoPages 2 5 ⟨1, 1, true, 1⟩
     (by decide)⟩

/-- C4: in `getMyFollowers`, a page response carrying no `data` — at any
loop state, so also mid-pagination with a valid prior cursor and a nonempty
accumulator — stops the loop immediately: the outcome is a normal finish
returning exactly the followers accumulated so far, with the single
further request on the trace. -/
theorem getMyFollowers_no_data_stops
    (server : Nat → Except JSError FollowersPage) (maxResults : Int)
    (followers : List TwitterUser) (idx fuel : Nat) (page : FollowersPage)
    (hs : server idx = .ok page) (hd : page.data = none) (hf : 0 < fuel) :
    followersLoop server maxResults followers idx fuel =
      .finished followers
        [⟨min 100 (maxResults - followers.length), followers.length, false, 0⟩] := by
  cases fuel with
  | zero => omega
  | succ n => simp [followersLoop, hs, hd]

/-- A server whose every response has no `data` field but a next cursor. -/
def serverNoData : Nat → Except JSError FollowersPage :=
  fun _ => .ok ⟨none, some "t"⟩

theorem getMyFollowers_no_data_stops_witness :
    followersLoop serverNoData 50 [normalizeUser rawA] 3 7 =
      .finished [normalizeUser rawA]
        [⟨min 100 (50 - ([normalizeUser rawA].length : Int)),
          [normalizeUser rawA].length, false, 0⟩] :=
  getMyFollowers_no_data_stops serverNoData 50 [normalizeUser rawA] 3 7
    ⟨none, some "t"⟩ rfl rfl (by decide)

/-- C5: each of the three operations, when the client-handle accessor
yields `null`/`undefined`, fails with the not-authenticated error — and
does so for every possible outcome of the remaining collaborator calls,
i.e. before any network call is attempted. -/
theorem unauthenticated_guard
    (username : String) (uenv : UnfollowEnv) (fenv : FollowersEnv)
    (cenv : FollowCheckEnv) (maxResults : Int) (fuel : Nat) :
    (uenv.v2client = none →
        unfollowUser username uenv = .error (.err v2InitMessage))
    ∧ (fenv.v2client = none →
        getMyFollowers fenv maxResults fuel = some (.error (.err v2InitMessage)))
    ∧ (cenv.v2client = none →
        isFollowingMe username cenv = .error (.err v2InitMessage)) := by
  refine ⟨?_, ?_, ?_⟩ <;> intro h <;>
    simp [unfollowUser, getMyFollowers, isFollowingMe, h]

/-- An unauthenticated `unfollowUser` environment. -/
def uenvNoClient : UnfollowEnv := ⟨none, .ok none, .ok none, .ok ()⟩

/-- An unauthenticated `getMyFollowers` environment. -/
def fenvNoClient : FollowersEnv := ⟨none, .ok none, fun _ => .ok ⟨none, none⟩⟩

/-- An unauthenticated `isFollowingMe` environment. -/
def cenvNoClient : FollowCheckEnv := ⟨none, .ok none, .ok none, .ok ⟨none⟩⟩

theorem unauthenticated_guard_witness :
    unfollowUser "alice" uenvNoClient = .error (.err v2InitMessage)
    ∧ getMyFollowers fenvNoClient 100 5 = some (.error (.err v2InitMessage))
    ∧ isFollowingMe "alice" cenvNoClient = .error (.err v2InitMessage) :=
  ⟨(unauthenticated_guard "alice" uenvNoClient fenvNoClient cenvNoClient 100 5).1 rfl,
   (unauthenticated_guard "alice" uenvNoClient fenvNoClient cenvNoClient 100 5).2.1 rfl,
   (unauthenticated_guard "alice" uenvNoClient fenvNoClient cenvNoClient 100 5).2.2 rfl⟩

/-- C7: for every normalized user, an absent or empty source profile-image
field yields the fixed placeholder URL, a nonempty source value is kept
verbatim, and the resulting `profileImageUrl` is never empty. -/
theorem normalizeUser_profileImage (u : RawUser) :
    ((u.profile_image_url = none ∨ u.profile_image_url = some "") →
        (normalizeUser u).profileImageUrl = defaultProfileImageUrl)
    ∧ (∀ s, u.profile_image_url = some s → s ≠ "" →
        (normalizeUser u).profileImageUrl = s)
    ∧ (normalizeUser u).profileImageUrl ≠ "" := by
  refine ⟨?_, ?_, ?_⟩
  · rintro (h | h) <;> simp [normalizeUser, jsOrString, h]
  · intro s hs hne
    simp [normalizeUser, jsOrString, hs, hne]
  · rcases h : u.profile_image_url with _ | s
    · have he : (normalizeUser u).profileImageUrl = defaultProfileImageUrl := by
        simp [normalizeUser, jsOrString, h]
      rw [he]; decide
    · by_cases hz : s = ""
      · have he : (normalizeUser u).profileImageUrl = defaultProfileImageUrl := by
          simp [normalizeUser, jsOrString, h, hz]
        rw [he]; decide
      · have he : (normalizeUser u).profileImageUrl = s := by
          simp [normalizeUser, jsOrString, h, hz]
        rw [he]; exact hz

theorem normalizeUser_profileImage_witness :
    (normalizeUser rawB).profileImageUrl = defaultProfileImageUrl
    ∧ (normalizeUser rawA).profileImageUrl = "http://img/a" :=
  ⟨(normalizeUser_profileImage rawB).1 (Or.inl rfl),
   (normalizeUser_profileImage rawA).2.1 "http://img/a" rfl (by decide)⟩

/-- C6: with the collaborator calls succeeding, `isFollowingMe` returns
`true` iff the current account's id appears among the identifiers of the
fetched following-list page, and returns `false` without throwing when the
page has no data or the id is absent. -/
theorem isFollowingMe_membership
    (username : String) (env : FollowCheckEnv) (u : RawUser) (uid : String)
    (page : FollowingPage)
    (hc : env.v2client = some ())
    (hu : env.userByUsername = .ok (some u))
    (hm : env.me = .ok (some (some uid))) (hz : uid ≠ "")
    (hf : env.followingCall = .ok page) :
    (isFollowingMe username env = .ok true ↔
      ∃ ids, page.data = some ids ∧ uid ∈ ids)
    ∧ (page.data = none → isFollowingMe username env = .ok false)
    ∧ (∀ ids, page.data = some ids → uid ∉ ids →
        isFollowingMe username env = .ok false) := by
  rcases hd : page.data with _ | ids
  · have hres : isFollowingMe username env = .ok false := by
      simp [isFollowingMe, isFollowingMeBody, hc, hu, hm, hz, hf, hd]
    refine ⟨?_, fun _ => hres, ?_⟩
    · rw [hres]
      simp
    · intro ids h
      simp at h
  · have hres : isFollowingMe username env =
        .ok (ids.any (fun fid => fid = uid)) := by
      simp [isFollowingMe, isFollowingMeBody, hc, hu, hm, hz, hf, hd]
    refine ⟨?_, ?_, ?_⟩
    · rw [hres]
      simp [List.any_eq_true]
    · intro h
      simp at h
    · intro ids' h hnot
      obtain rfl : ids = ids' := by injection h
      rw [hres]
      have hfalse : ids.any (fun fid => fid = uid) = false := by
        simp [List.any_eq_false]
        intro x hx hxe
        exact hnot (hxe ▸ hx)
      rw [hfalse]

/-- A follow-check environment whose following page contains the current
account's id. -/
def cenvFollowing : FollowCheckEnv :=
  ⟨some (), .ok (some rawA), .ok (some (some "me")), .ok ⟨some ["x", "me"]⟩⟩

theorem isFollowingMe_membership_witness :
    isFollowingMe "alice" cenvFollowing = .ok true :=
  ((isFollowingMe_membership "alice" cenvFollowing rawA "me" ⟨some ["x", "me"]⟩
      rfl rfl rfl (by decide) rfl).1).mpr ⟨["x", "me"], rfl, by decide⟩

/-- C8: for each operation, a failure inside the `try` body surfaces as a
single error wrapping the original message with the operation's contextual
text, while a thrown non-`Error` value is re-raised unchanged. -/
theorem operation_error_wrapping
    (username : String) (uenv : UnfollowEnv) (fenv : FollowersEnv)
    (cenv : FollowCheckEnv) (maxResults : Int) (fuel : Nat) (m v : String) :
    (uenv.v2client = some () → unfollowBody username uenv = .error (.err m) →
        unfollowUser username uenv =
          .error (.err ("Failed to unfollow user " ++ username ++ ": " ++ m)))
    ∧ (uenv.v2client = some () →
        unfollowBody username uenv = .error (.nonError v) →
        unfollowUser username uenv = .error (.nonError v))
    ∧ (fenv.v2client = some () →
        followersBody fenv maxResults fuel = some (.error (.err m)) →
        getMyFollowers fenv maxResults fuel =
          some (.error (.err ("Failed to get followers: " ++ m))))
    ∧ (fenv.v2client = some () →
        followersBody fenv maxResults fuel = some (.error (.nonError v)) →
        getMyFollowers fenv maxResults fuel = some (.error (.nonError v)))
    ∧ (cenv.v2client = some () →
        isFollowingMeBody username cenv = .error (.err m) →
        isFollowingMe username cenv =
          .error (.err ("Failed to check if " ++ username ++
            " follows you: " ++ m)))
    ∧ (cenv.v2client = some () →
        isFollowingMeBody username cenv = .error (.nonError v) →
        isFollowingMe username cenv = .error (.nonError v)) := by
  refine ⟨?_, ?_, ?_, ?_, ?_, ?_⟩ <;> intro h1 h2 <;>
    simp [unfollowUser, getMyFollowers, isFollowingMe, wrapError, h1, h2]
  rw [show (" follows you: " : String) = " follows you" ++ ": " from rfl,
    ← String.append_assoc]

/-- An `unfollowUser` environment whose username lookup throws an `Error`. -/
def uenvErrA : UnfollowEnv := ⟨some (), .error (.err "boom"), .ok none, .ok ()⟩

/-- An `unfollowUser` environment whose username lookup throws a
non-`Error` value. -/
def uenvErrB : UnfollowEnv :=
  ⟨some (), .error (.nonError "weird"), .ok none, .ok ()⟩

/-- A `getMyFollowers` environment whose `auth.me()` throws an `Error`. -/
def fenvErrA : FollowersEnv :=
  ⟨some (), .error (.err "boom"), fun _ => .ok ⟨none, none⟩⟩

/-- A `getMyFollowers` environment whose `auth.me()` throws a non-`Error`
value. -/
def fenvErrB : FollowersEnv :=
  ⟨some (), .error (.nonError "weird"), fun _ => .ok ⟨none, none⟩⟩

/-- An `isFollowingMe` environment whose username lookup throws an
`Error`. -/
def cenvErrA : FollowCheckEnv :=
  ⟨some (), .error (.err "boom"), .ok none, .ok ⟨none⟩⟩

/-- An `isFollowingMe` environment whose username lookup throws a
non-`Error` value. -/
def cenvErrB : FollowCheckEnv :=
  ⟨some (), .error (.nonError "weird"), .ok none, .ok ⟨none⟩⟩

theorem operation_error_wrapping_witness :
    unfollowUser "bob" uenvErrA =
      .error (.err "Failed to unfollow user bob: boom")
    ∧ unfollowUser "bob" uenvErrB = .error (.nonError "weird")
    ∧ getMyFollowers fenvErrA 100 5 =
      some (.error (.err "Failed to get followers: boom"))
    ∧ getMyFollowers fenvErrB 100 5 = some (.error (.nonError "weird"))
    ∧ isFollowingMe "bob" cenvErrA =
      .error (.err "Failed to check if bob follows you: boom")
    ∧ isFollowingMe "bob" cenvErrB = .error (.nonError "weird") :=
  ⟨(operation_error_wrapping "bob" uenvErrA fenvErrA cenvErrA 100 5
      "boom" "weird").1 rfl rfl,
   (operation_error_wrapping "bob" uenvErrB fenvErrB cenvErrB 100 5
      "boom" "weird").2.1 rfl rfl,
   (operation_error_wrapping "bob" uenvErrA fenvErrA cenvErrA 100 5
      "boom" "weird").2.2.1 rfl rfl,
   (operation_error_wrapping "bob" uenvErrB fenvErrB cenvErrB 100 5
      "boom" "weird").2.2.2.1 rfl rfl,
   (operation_error_wrapping "bob" uenvErrA fenvErrA cenvErrA 100 5
      "boom" "weird").2.2.2.2.1 rfl rfl,
   (operation_error_wrapping "bob" uenvErrB fenvErrB cenvErrB 100 5
      "boom" "weird").2.2.2.2.2 rfl rfl⟩

/-- A server answering every request with an empty-but-present entry list
and a next cursor. -/
def serverEmptyPages : Nat → Except JSError FollowersPage :=
  fun _ => .ok ⟨some [], some "next"⟩

/-- Against `serverEmptyPages`, with target 100, the loop issues a request
on every unit of fuel and never reaches a stopping condition. -/
theorem followersLoop_emptyPages (fuel : Nat) :
    ∀ idx, followersLoop serverEmptyPages 100 [] idx fuel =
      .fuelExhausted [] (List.replicate fuel ⟨100, 0, true, 0⟩) := by
  induction fuel with
  | zero => intro idx; rfl
  | succ n ih =>
    intro idx
    rw [followersLoop]
    simp only [serverEmptyPages, List.map_nil, List.append_nil,
      List.length_nil, Nat.cast_zero]
    norm_num
    rw [ih (idx + 1)]
    simp [LoopOutcome.withRecord, List.replicate_succ]

/-- C9: a page whose entries field is present but empty does not stop the
loop: with a next cursor present and the count below `maxResults`, another
page request is issued, so a server that keeps answering empty-but-present
pages with cursors makes the loop consume all its fuel — one request per
unit — without ever terminating on its own. -/
theorem getMyFollowers_empty_present_pages_diverge (fuel : Nat) :
    followersRun serverEmptyPages 100 fuel =
      .fuelExhausted [] (List.replicate fuel ⟨100, 0, true, 0⟩) :=
  followersLoop_emptyPages fuel 0

/-- C10: for `maxResults ≤ 0`, `getMyFollowers` still issues one page
request, with the non-positive requested size `min 100 maxResults`, and
the entries of that page are accumulated and returned, so the result can
be non-empty although no results were requested. -/
theorem getMyFollowers_nonpositive_maxResults
    (env : FollowersEnv) (maxResults : Int) (fuel : Nat)
    (meRes : MeResult) (page : FollowersPage) (entries : List RawUser)
    (hc : env.v2client = some ()) (hm : env.me = .ok meRes)
    (hg : meGuardFails meRes = false)
    (hmax : maxResults ≤ 0) (hp : env.pages 0 = .ok page)
    (hd : page.data = some entries) (hf : 0 < fuel) :
    followersRun env.pages maxResults fuel =
      .finished (entries.map normalizeUser)
        [⟨min 100 maxResults, 0, true, entries.length⟩]
    ∧ getMyFollowers env maxResults fuel =
      some (.ok (entries.map normalizeUser))
    ∧ min 100 maxResults ≤ 0 := by
  have hrun : followersRun env.pages maxResults fuel =
      .finished (entries.map normalizeUser)
        [⟨min 100 maxResults, 0, true, entries.length⟩] := by
    cases fuel with
    | zero => omega
    | succ n =>
      rw [followersRun, followersLoop]
      simp only [hp, hd, List.nil_append, List.length_nil, Nat.cast_zero,
        Int.sub_zero]
      rw [if_pos (by omega)]
  refine ⟨hrun, ?_, le_trans (min_le_right _ _) hmax⟩
  simp [getMyFollowers, followersBody, hc, hm, hg, hrun]

/-- A `getMyFollowers` environment whose single page carries one entry
and a cursor, used with `maxResults = 0`. -/
def fenvTiny : FollowersEnv :=
  ⟨some (), .ok (some (some "me")), fun _ => .ok ⟨some [rawB], some "c"⟩⟩

theorem getMyFollowers_nonpositive_maxResults_witness :
    followersRun fenvTiny.pages 0 3 =
      .finished ([rawB].map normalizeUser) [⟨min 100 0, 0, true, 1⟩]
    ∧ getMyFollowers fenvTiny 0 3 = some (.ok ([rawB].map normalizeUser))
    ∧ min 100 (0 : Int) ≤ 0 :=
  getMyFollowers_nonpositive_maxResults fenvTiny 0 3 (some (some "me"))
    ⟨some [rawB], some "c"⟩ [rawB] rfl rfl (by decide) (by decide) rfl rfl
    (by decide)

/-- If the loop starts at or below `maxResults` and every page in the run
carries at most the number of entries requested for it, a normal finish
returns at most `maxResults` followers. -/
theorem followersLoop_length_le (maxResults : Int) :
    ∀ (fuel : Nat) (server : Nat → Except JSError FollowersPage)
      (followers : List TwitterUser) (idx : Nat)
      (res : List TwitterUser) (tr : List RequestRecord),
      (followers.length : Int) ≤ maxResults →
      followersLoop server maxResults followers idx fuel = .finished res tr →
      (∀ r ∈ tr, (r.entryCount : Int) ≤ r.requestedSize) →
      (res.length : Int) ≤ maxResults := by
  intro fuel
  induction fuel with
  | zero =>
    intro server followers idx res tr hle heq hbound
    simp [followersLoop] at heq
  | succ n ih =>
    intro server followers idx res tr hle heq hbound
    rw [followersLoop] at heq
    split at heq
    · cases heq
    · split at heq
      · cases heq
        exact hle
      · split at heq
        · cases heq
          rename_i entries hdata hif
          have hb : ((entries.length : Nat) : Int) ≤
              min 100 (maxResults - (followers.length : Int)) :=
            hbound _ (List.mem_singleton.mpr rfl)
          have hb2 := le_trans hb
            (min_le_right 100 (maxResults - (followers.length : Int)))
          simp only [List.length_append, List.length_map, Nat.cast_add]
          omega
        · split at heq
          · cases heq
            simp only [List.length_append, List.length_map, Nat.cast_add] at *
            omega
          · rename_i entries hdata hif a s htok
            rcases hrec : followersLoop server maxResults
                (followers ++ List.map normalizeUser entries) (idx + 1) n
              with ⟨fs, tr2⟩ | ⟨fs, tr2⟩ | ⟨e, tr2⟩
            · rw [hrec] at heq
              simp only [LoopOutcome.withRecord] at heq
              injection heq with h1 h2
              rw [← h1]
              refine ih server (followers ++ List.map normalizeUser entries)
                (idx + 1) fs tr2 ?_ hrec ?_
              · simp only [List.length_append, List.length_map,
                  Nat.cast_add] at *
                omega
              · intro r hr
                apply hbound
                rw [← h2]
                exact List.mem_cons_of_mem _ hr
            · rw [hrec] at heq
              simp [LoopOutcome.withRecord] at heq
            · rw [hrec] at heq
              simp [LoopOutcome.withRecord] at heq

/-- C1 (amended): provided `maxResults ≥ 0` and every server page carries
at most the number of entries the loop requested for it, the sequence
returned by `getMyFollowers` has length at most `maxResults`.  (Without
the page-size proviso the bound fails: the implementation never truncates
a page, so a final page larger than requested overshoots `maxResults`.) -/
theorem getMyFollowers_length_le_maxResults
    (env : FollowersEnv) (maxResults : Int) (fuel : Nat) (meRes : MeResult)
    (res : List TwitterUser) (tr : List RequestRecord)
    (hc : env.v2client = some ()) (hm : env.me = .ok meRes)
    (hg : meGuardFails meRes = false)
    (hmax : (0 : Int) ≤ maxResults)
    (hrun : followersRun env.pages maxResults fuel = .finished res tr)
    (hbound : ∀ r ∈ tr, (r.entryCount : Int) ≤ r.requestedSize) :
    getMyFollowers env maxResults fuel = some (.ok res)
    ∧ (res.length : Int) ≤ maxResults := by
  constructor
  · simp [getMyFollowers, followersBody, hc, hm, hg, hrun]
  · exact followersLoop_length_le maxResults fuel env.pages [] 0 res tr
      (by simpa) hrun hbound

/-- A compliant two-page environment: each page carries exactly the
requested number of entries. -/
def fenvTwoPages : FollowersEnv :=
  ⟨some (), .ok (some (some "me")), serverTwoPages⟩

theorem getMyFollowers_length_le_maxResults_witness :
    getMyFollowers fenvTwoPages 2 5 =
      some (.ok [normalizeUser rawA, normalizeUser rawB])
    ∧ (([normalizeUser rawA, normalizeUser rawB].length : Nat) : Int) ≤ 2 :=
  getMyFollowers_length_le_maxResults fenvTwoPages 2 5 (some (some "me"))
    [normalizeUser rawA, normalizeUser rawB]
    [⟨2, 0, true, 1⟩, ⟨1, 1, true, 1⟩] rfl rfl (by decide) (by decide)
    (by decide) (by decide)

/-- An environment whose single page carries two entries although only one
was requested. -/
def fenvOvershoot : FollowersEnv :=
  ⟨some (), .ok (some (some "me")), fun _ => .ok ⟨some [rawA, rawB], none⟩⟩

/-- C1 counterexample: with `maxResults = 1` and a server page carrying
two entries, `getMyFollowers` returns a sequence of length 2 > 1, so the
length bound does not hold for every sequence of server pages. -/
theorem getMyFollowers_length_le_maxResults_cex :
    getMyFollowers fenvOvershoot 1 5 =
      some (.ok [normalizeUser rawA, normalizeUser rawB])
    ∧ ¬ ((([normalizeUser rawA, normalizeUser rawB].length : Nat) : Int) ≤ 1) := by
  constructor
  · rfl
  · decide

/-- C2 (amended): an error raised in steps 2–4, inside the `try` body of
`unfollowUser`, is caught once and re-raised wrapped as
"Failed to unfollow user <username>: <original message>"; the step-1
guard error for an absent client handle is thrown before the `try`/`catch`
and propagates with its original message, unwrapped. -/
theorem unfollowUser_error_wrapping
    (username : String) (env : UnfollowEnv) (m : String) :
    (env.v2client = none →
        unfollowUser username env = .error (.err v2InitMessage))
    ∧ (env.v2client = some () → unfollowBody username env = .error (.err m) →
        unfollowUser username env =
          .error (.err ("Failed to unfollow user " ++ username ++
            ": " ++ m))) := by
  constructor
  · intro h
    simp [unfollowUser, h]
  · intro h1 h2
    simp [unfollowUser, wrapError, h1, h2]

theorem unfollowUser_error_wrapping_witness :
    unfollowUser "carol" uenvNoClient = .error (.err v2InitMessage)
    ∧ unfollowUser "carol" uenvErrA =
      .error (.err "Failed to unfollow user carol: boom") :=
  ⟨(unfollowUser_error_wrapping "carol" uenvNoClient "x").1 rfl,
   (unfollowUser_error_wrapping "carol" uenvErrA "boom").2 rfl rfl⟩

/-- C2 counterexample: with the client handle absent, the step-1 error
surfaces with its original message, which is not of the wrapped form
"Failed to unfollow user ...". -/
theorem unfollowUser_guard_unwrapped_cex :
    unfollowUser "alice" uenvNoClient = .error (.err v2InitMessage)
    ∧ v2InitMessage ≠ "Failed to unfollow user alice: " ++ v2InitMessage := by
  constructor
  · rfl
  · decide
